import Mathlib

/-!
Shallow embedding of `src/_agent/traders/sma_crossover.py` (SMA crossover
trading agent).  Python floats are modelled as `ℚ`, the external random
source as a function `ℕ → ℤ` (the i-th draw of `random.randint`), fallible
operations (list indexing that can raise `IndexError`) as `Option`, and the
mutable `Trader` object as an explicit state record transformed by pure
functions `Trader.learn` / `Trader.act` / `Trader.reset`.
-/

/-- Embedding of the `EMA` class: `window_size`, `count`, `last_average`. -/
structure EMA where
  window_size : ℕ
  count : ℕ
  last_average : ℚ
deriving DecidableEq

/-- `EMA.__init__(window_size)`. -/
def EMA.init (w : ℕ) : EMA := ⟨w, 0, 0⟩

/-- `EMA.update(new_value)`:
`self.count = min(self.count + 1, self.window_size)` followed by
`average = self.last_average + (new_value - self.last_average) / self.count`. -/
def EMA.update (e : EMA) (new_value : ℚ) : EMA :=
  let c := min (e.count + 1) e.window_size
  { e with count := c
           last_average := e.last_average + (new_value - e.last_average) / (c : ℚ) }

/-- `EMA.reset()`. -/
def EMA.reset (e : EMA) : EMA := { e with count := 0, last_average := 0 }

/-- Semantics of a Python list comprehension `[f(i) for i in l]` where `f`
may raise (modelled by `Option`): elements are produced left to right and
the whole comprehension fails as soon as one element fails. -/
def buildList {α : Type} (f : ℕ → Option α) : List ℕ → Option (List α)
  | [] => some []
  | i :: is =>
    match f i with
    | none => none
    | some a =>
      match buildList f is with
      | none => none
      | some l => some (a :: l)

/-- Embedding of `Trader.__generate_price_table(bid_price, ask_price, window_size)`:

    window_price = [random.randint(*sorted([bid_price*100, ask_price*100]))
                    for i in range(int(1440/window_size))]
    price_table = dict(zip(range(1440),
                    [[window_price[int(i/window_size)]/100, 0] for i in range(1440)]))

The random source is `rand : ℕ → ℤ` (i-th draw).  `int(1440/window_size)`
and `int(i/window_size)` are natural-number division for the integer inputs
that occur (the float quotients are exact enough that truncation agrees
with integer floor division for all `i < 1440`).  The list lookup
`window_price[int(i/window_size)]` raises `IndexError` when out of range,
modelled by `Option`; each table entry is a pair `(price, last_signal)`
keyed by the minute of day. -/
def generate_price_table (bid_price ask_price : ℚ) (window_size : ℕ)
    (rand : ℕ → ℤ) : Option (List (ℕ × (ℚ × ℚ))) :=
  let window_price : List ℤ := (List.range (1440 / window_size)).map rand
  buildList
    (fun i => (window_price.get? (i / window_size)).map
      (fun p => (i, ((p : ℚ) / 100, (0 : ℚ)))))
    (List.range 1440)

/-- The reward calculator's 4-tuple
`[unit_profit, unit_profit_diff, unit_cost, unit_cost_diff]`. -/
structure Rewards where
  unit_profit : ℚ
  unit_profit_diff : ℚ
  unit_cost : ℚ
  unit_cost_diff : ℚ
deriving DecidableEq

/-- The mutable state of the `Trader` class that the claims are about.
`hasStorage` models `'storage' in self.__participant`, fixed at
construction; the two price tables are total maps on minute-of-day
(`time_index = hour*60 + minute` is always in `[0,1439]`), each slot a pair
`(price, last_signal)`. -/
structure Trader where
  hasStorage : Bool
  learning : Bool
  price_adj_step : ℚ
  bid_prices : Fin 1440 → ℚ × ℚ
  ask_prices : Fin 1440 → ℚ × ℚ
  sma_bid : EMA
  lma_bid : EMA
  sma_ask : EMA
  lma_ask : EMA
  buy_trigger : Bool
  sell_trigger : Bool

/-- Embedding of `Trader.__init__(bid_price, ask_price, **kwargs)` (the
parts the claims depend on).  `scale_factor = 1`; the two price tables are
generated with window 15, which always succeeds (`15 ∣ 1440`), producing
slot `m ↦ (rand(m/15)/100, 0)`; lemma `generate_price_table_window15`
below identifies this function with `generate_price_table _ _ 15 _`. -/
def Trader.init (bid_price ask_price : ℚ) (learning hasStorage : Bool)
    (randBid randAsk : ℕ → ℤ) : Trader where
  hasStorage := hasStorage
  learning := learning
  price_adj_step := 1 / 1000
  bid_prices := fun m => (((randBid (m.val / 15) : ℚ)) / 100, 0)
  ask_prices := fun m => (((randAsk (m.val / 15) : ℚ)) / 100, 0)
  sma_bid := EMA.init 23
  lma_bid := EMA.init 50
  sma_ask := EMA.init 23
  lma_ask := EMA.init 50
  buy_trigger := false
  sell_trigger := false

/-- Embedding of `Trader.learn(**kwargs)`.  The reward calculator's result
(`None` or a 4-tuple) and the minute-of-day index derived from
`last_deliver` are inputs.  Returns the updated trader state. -/
def Trader.learn (s : Trader) (rewards : Option Rewards) (time_index : Fin 1440) :
    Trader :=
  if s.learning = false then s
  else
    match rewards with
    | none => s
    | some r =>
      let last_ask_price := (s.ask_prices time_index).1
      let last_bid_price := (s.bid_prices time_index).1
      let new_ask_price :=
        if r.unit_profit_diff ≤ 0 then
          max r.unit_profit (last_ask_price - s.price_adj_step)
        else if r.unit_profit_diff - (s.ask_prices time_index).2 > 0 then
          last_ask_price + s.price_adj_step
        else
          last_ask_price - s.price_adj_step
      let ask_prices' :=
        Function.update s.ask_prices time_index (new_ask_price, r.unit_profit_diff)
      let new_bid_price :=
        if r.unit_cost_diff ≥ 0 then
          min r.unit_cost (last_bid_price + s.price_adj_step)
        else if r.unit_cost_diff - (s.bid_prices time_index).2 > 0 then
          last_bid_price - s.price_adj_step
        else
          last_bid_price + s.price_adj_step
      let bid_prices' :=
        Function.update s.bid_prices time_index (new_bid_price, r.unit_cost_diff)
      { s with
        ask_prices := ask_prices'
        bid_prices := bid_prices'
        sma_bid := s.sma_bid.update (bid_prices' time_index).1
        lma_bid := s.lma_bid.update (bid_prices' time_index).1
        sma_ask := s.sma_ask.update (ask_prices' time_index).1
        lma_ask := s.lma_ask.update (ask_prices' time_index).1 }

/-- An order placed into `actions['bids']` or `actions['asks']`:
`{'quantity': qty, 'source': source, 'price': dollar_per_kWh}`. -/
structure Order where
  quantity : ℚ
  source : String
  price : ℚ
deriving DecidableEq

/-- The `actions` dictionary returned by `Trader.act`.  The `bess` sub-dict
can hold at most the key `str(current_round)` (reconciliation of the
previous round) and the key `str(next_settle)`; `bids`/`asks` each hold at
most the key `str(next_settle)`. -/
structure Actions where
  bess_current : Option ℚ
  bess_next : Option ℚ
  bids : Option Order
  asks : Option Order
deriving DecidableEq

/-- The storage collaborator's data used by `act` (meaningful only when the
trader has storage): `energy_scheduled` for the current round,
`energy_potential = (max_discharge, max_charge)` and `projected_soc_end`
for the next settle are flattened into one record. -/
structure StorageInfo where
  energy_scheduled : ℚ
  max_discharge : ℚ
  max_charge : ℚ
  projected_soc : ℚ
deriving DecidableEq

/-- `self.__participant['ledger'].get_settled_info(current_round)`:
realized bid/ask quantities. -/
structure SettledInfo where
  bids_quantity : ℚ
  asks_quantity : ℚ
deriving DecidableEq

/-- Per-call external inputs of `Trader.act`: the next-settle profile
(`read_profile(next_settle)`), the current-round profile
(`read_profile(current_round)`), the storage schedule data and the ledger's
settled info. -/
structure ActEnv where
  next_generation : ℚ
  next_load : ℚ
  ls_generation : ℚ
  ls_load : ℚ
  storage : StorageInfo
  settled : SettledInfo
deriving DecidableEq

/-- Lines 237–249 of `act`: recompute `buy_trigger`/`sell_trigger` from the
four trackers' running averages and the projected state of charge,
including the tie-break that forces `buy` off when both fire. -/
def computeTriggers (s : Trader) (projected_soc : ℚ) : Bool × Bool :=
  let buy : Bool :=
    if s.sma_bid.last_average < s.lma_bid.last_average ∧ projected_soc < 9/10
    then true else false
  let sell : Bool :=
    if s.sma_ask.last_average ≥ s.lma_ask.last_average ∧ projected_soc > 3/10
    then true else false
  if buy = true ∧ sell = true then (false, true) else (buy, sell)

/-- Embedding of `Trader.act(**kwargs)`.  `time_index` is the minute of day
of `next_settle`'s local time.  Returns the updated trader state (the
trigger flags can be mutated) together with the `actions` dictionary. -/
def Trader.act (s : Trader) (e : ActEnv) (time_index : Fin 1440) :
    Trader × Actions :=
  let next_residual_load := e.next_load - e.next_generation
  let next_residual_gen := -next_residual_load
  -- reconciliation of the previous round's storage schedule (storage only)
  let bess_current : Option ℚ :=
    if s.hasStorage = true then
      let ls_residual_load := e.ls_load - e.ls_generation
      if e.storage.energy_scheduled > 0 then
        some (min e.storage.energy_scheduled
          (max 0 (e.settled.bids_quantity - max 0 ls_residual_load)))
      else if e.storage.energy_scheduled < 0 then
        some (e.storage.energy_scheduled - e.settled.asks_quantity)
      else none
    else none
  if next_residual_load > 0 then
    let max_charge := if s.hasStorage = true then e.storage.max_charge else 0
    let effective_discharge :=
      if s.hasStorage = true then
        max (-(max 0 next_residual_load)) e.storage.max_discharge
      else 0
    let residual_discharge :=
      if s.hasStorage = true then e.storage.max_discharge - effective_discharge
      else 0
    let s' :=
      if s.hasStorage = true then
        let trig := computeTriggers s e.storage.projected_soc
        { s with buy_trigger := trig.1, sell_trigger := trig.2 }
      else s
    let bess_next0 : Option ℚ :=
      if s.hasStorage = true then some effective_discharge else none
    if s'.buy_trigger = true then
      (s', { bess_current := bess_current
             bess_next := some max_charge
             bids := some { quantity := next_residual_load + max_charge
                            source := "solar"
                            price := (s.bid_prices time_index).1 }
             asks := none })
    else
      let final_residual_load := next_residual_load + effective_discharge
      if final_residual_load > 0 then
        (s', { bess_current := bess_current
               bess_next := bess_next0
               bids := some { quantity := final_residual_load
                              source := "solar"
                              price := (s.bid_prices time_index).1 }
               asks := none })
      else if residual_discharge < 0 ∧ s'.sell_trigger = true then
        (s', { bess_current := bess_current
               bess_next := bess_next0
               bids := none
               asks := some { quantity := |residual_discharge|
                              source := "solar"
                              price := (s.ask_prices time_index).1 } })
      else
        (s', { bess_current := bess_current
               bess_next := bess_next0
               bids := none
               asks := none })
  else if next_residual_gen > 0 then
    let final_residual_gen := next_residual_gen
    (s, { bess_current := bess_current
          bess_next := none
          bids := none
          asks := some { quantity := final_residual_gen
                         source := "solar"
                         price := (s.ask_prices time_index).1 } })
  else
    (s, { bess_current := bess_current
          bess_next := none
          bids := none
          asks := none })

/-- Embedding of `Trader.reset(**kwargs)`: resets the four trackers. -/
def Trader.reset (s : Trader) : Trader :=
  { s with
    lma_bid := s.lma_bid.reset
    lma_ask := s.lma_ask.reset
    sma_bid := s.sma_bid.reset
    sma_ask := s.sma_ask.reset }

/-- The trader states an agent can actually be in: the constructor's state,
closed under `learn`, `act` and `reset` steps. -/
inductive Reachable : Trader → Prop
  | init (bid_price ask_price : ℚ) (learning hasStorage : Bool)
      (randBid randAsk : ℕ → ℤ) :
      Reachable (Trader.init bid_price ask_price learning hasStorage randBid randAsk)
  | learn (s : Trader) (rewards : Option Rewards) (t : Fin 1440) :
      Reachable s → Reachable (s.learn rewards t)
  | act (s : Trader) (e : ActEnv) (t : Fin 1440) :
      Reachable s → Reachable (s.act e t).1
  | reset (s : Trader) : Reachable s → Reachable s.reset

/-! ## Helper lemmas -/

lemma buildList_eq_map {α : Type} (f : ℕ → Option α) (g : ℕ → α) :
    ∀ l : List ℕ, (∀ i ∈ l, f i = some (g i)) → buildList f l = some (l.map g) := by
  intro l
  induction l with
  | nil => intro _; rfl
  | cons i is ih =>
    intro h
    have hi : f i = some (g i) := h i (List.mem_cons_self i is)
    have his : ∀ j ∈ is, f j = some (g j) := fun j hj => h j (List.mem_cons_of_mem i hj)
    simp [buildList, hi, ih his]

lemma buildList_eq_none {α : Type} (f : ℕ → Option α) (i : ℕ) :
    ∀ l : List ℕ, i ∈ l → f i = none → buildList f l = none := by
  intro l
  induction l with
  | nil => intro h _; exact absurd h (List.not_mem_nil i)
  | cons j js ih =>
    intro hmem hnone
    rcases List.mem_cons.mp hmem with rfl | hmem'
    · simp [buildList, hnone]
    · cases hfj : f j with
      | none => simp [buildList, hfj]
      | some a => simp [buildList, hfj, ih hmem' hnone]

lemma generate_price_table_eq_map (bid ask : ℚ) (w : ℕ) (rand : ℕ → ℤ)
    (hw : 1440 % w = 0) :
    generate_price_table bid ask w rand
      = some ((List.range 1440).map
          (fun i => (i, ((rand (i / w) : ℚ) / 100, (0 : ℚ))))) := by
  have hw0 : 0 < w := by
    rcases Nat.eq_zero_or_pos w with rfl | h
    · simp at hw
    · exact h
  unfold generate_price_table
  apply buildList_eq_map
  intro i hi
  have hi' : i < 1440 := List.mem_range.mp hi
  have hdvd : w ∣ 1440 := Nat.dvd_of_mod_eq_zero hw
  have hlt : i / w < 1440 / w := Nat.div_lt_div_of_lt_of_dvd hdvd hi'
  have hget : (List.range (1440 / w))[i / w]? = some (i / w) :=
    List.getElem?_range hlt
  simp [hget]

lemma generate_price_table_window15 (bid ask : ℚ) (rand : ℕ → ℤ) :
    generate_price_table bid ask 15 rand
      = some ((List.range 1440).map
          (fun i => (i, ((rand (i / 15) : ℚ) / 100, (0 : ℚ))))) :=
  generate_price_table_eq_map bid ask 15 rand (by norm_num)

lemma generate_price_table_eq_none (bid ask : ℚ) (w : ℕ) (rand : ℕ → ℤ)
    (hw : 1440 % w ≠ 0) :
    generate_price_table bid ask w rand = none := by
  unfold generate_price_table
  rcases Nat.eq_zero_or_pos w with rfl | hw0
  · apply buildList_eq_none _ 0
    · exact List.mem_range.mpr (by norm_num)
    · simp
  · have h := Nat.div_add_mod 1440 w
    have hle : 1440 / w * w ≤ 1440 := Nat.div_mul_le_self 1440 w
    have hne : w * (1440 / w) ≠ 1440 := by
      intro heq
      apply hw
      rw [heq] at h
      omega
    have hi0 : w * (1440 / w) < 1440 :=
      lt_of_le_of_ne (by rw [mul_comm]; exact hle) hne
    apply buildList_eq_none _ (w * (1440 / w))
    · exact List.mem_range.mpr hi0
    · have hdiv : (w * (1440 / w)) / w = 1440 / w := Nat.mul_div_cancel_left _ hw0
      have hnone : (List.range (1440 / w))[(w * (1440 / w)) / w]? = none := by
        apply List.getElem?_eq_none
        rw [hdiv]
        simp
      simp [hnone]

lemma Trader.learn_hasStorage (s : Trader) (r : Option Rewards) (t : Fin 1440) :
    (s.learn r t).hasStorage = s.hasStorage := by
  unfold Trader.learn
  split
  · rfl
  · cases r <;> rfl

lemma Trader.learn_buy_trigger (s : Trader) (r : Option Rewards) (t : Fin 1440) :
    (s.learn r t).buy_trigger = s.buy_trigger := by
  unfold Trader.learn
  split
  · rfl
  · cases r <;> rfl

lemma Trader.act_fst_of_no_storage (s : Trader) (e : ActEnv) (t : Fin 1440)
    (hs : s.hasStorage = false) : (s.act e t).1 = s := by
  unfold Trader.act
  simp only [hs, Bool.false_eq_true, if_false]
  split_ifs <;> rfl

lemma Trader.act_hasStorage (s : Trader) (e : ActEnv) (t : Fin 1440) :
    (s.act e t).1.hasStorage = s.hasStorage := by
  cases hs : s.hasStorage with
  | false =>
    rw [Trader.act_fst_of_no_storage s e t hs]
    exact hs
  | true =>
    unfold Trader.act
    simp only [hs]
    split_ifs <;> first | rfl | exact hs

lemma reachable_no_storage_buy_trigger (s : Trader) (h : Reachable s) :
    s.hasStorage = false → s.buy_trigger = false := by
  induction h with
  | init => intro _; rfl
  | learn s' r t _ ih =>
    intro hs
    rw [Trader.learn_buy_trigger]
    exact ih (by rw [← Trader.learn_hasStorage s' r t]; exact hs)
  | act s' e t _ ih =>
    intro hs
    have hs' : s'.hasStorage = false := by
      rw [← Trader.act_hasStorage s' e t]; exact hs
    rw [Trader.act_fst_of_no_storage s' e t hs']
    exact ih hs'
  | reset s' _ ih =>
    intro hs
    exact ih hs

/-! ## Claim theorems -/

/-- C1: in `learn()`, with learning enabled and a reward 4-tuple, if
`unit_profit_diff ≤ 0` the new ask price of the settled minute's slot is
`max(unit_profit, last_ask_price - step)`, hence never below `unit_profit`
nor below `last_ask_price - step`; symmetrically, if `unit_cost_diff ≥ 0`
the new bid price is `min(unit_cost, last_bid_price + step)`, hence never
above `unit_cost` nor above `last_bid_price + step`. -/
theorem learn_monotonic_clamp (s : Trader) (r : Rewards) (t : Fin 1440)
    (hl : s.learning = true) :
    (r.unit_profit_diff ≤ 0 →
      ((s.learn (some r) t).ask_prices t).1
          = max r.unit_profit ((s.ask_prices t).1 - s.price_adj_step)
        ∧ r.unit_profit ≤ ((s.learn (some r) t).ask_prices t).1
        ∧ (s.ask_prices t).1 - s.price_adj_step ≤ ((s.learn (some r) t).ask_prices t).1)
    ∧ (r.unit_cost_diff ≥ 0 →
      ((s.learn (some r) t).bid_prices t).1
          = min r.unit_cost ((s.bid_prices t).1 + s.price_adj_step)
        ∧ ((s.learn (some r) t).bid_prices t).1 ≤ r.unit_cost
        ∧ ((s.learn (some r) t).bid_prices t).1 ≤ (s.bid_prices t).1 + s.price_adj_step) := by
  constructor
  · intro hp
    have h1 : ((s.learn (some r) t).ask_prices t).1
        = max r.unit_profit ((s.ask_prices t).1 - s.price_adj_step) := by
      simp [Trader.learn, hl, hp, Function.update_same]
    exact ⟨h1, h1 ▸ le_max_left _ _, h1 ▸ le_max_right _ _⟩
  · intro hc
    have h1 : ((s.learn (some r) t).bid_prices t).1
        = min r.unit_cost ((s.bid_prices t).1 + s.price_adj_step) := by
      simp [Trader.learn, hl, hc, Function.update_same]
    exact ⟨h1, h1 ▸ min_le_left _ _, h1 ▸ min_le_right _ _⟩

/-- Witness for C1 at a concrete learning-enabled state and reward tuple. -/
theorem learn_monotonic_clamp_witness :
    (Trader.init 0 0 true false (fun _ => 0) (fun _ => 0)).learning = true
    ∧ (((⟨5, 0, -5, 0⟩ : Rewards).unit_profit_diff ≤ 0 →
        (((Trader.init 0 0 true false (fun _ => 0) (fun _ => 0)).learn
            (some ⟨5, 0, -5, 0⟩) 0).ask_prices 0).1
            = max (⟨5, 0, -5, 0⟩ : Rewards).unit_profit
                (((Trader.init 0 0 true false (fun _ => 0) (fun _ => 0)).ask_prices 0).1
                  - (Trader.init 0 0 true false (fun _ => 0) (fun _ => 0)).price_adj_step)
          ∧ (⟨5, 0, -5, 0⟩ : Rewards).unit_profit
              ≤ (((Trader.init 0 0 true false (fun _ => 0) (fun _ => 0)).learn
                  (some ⟨5, 0, -5, 0⟩) 0).ask_prices 0).1
          ∧ ((Trader.init 0 0 true false (fun _ => 0) (fun _ => 0)).ask_prices 0).1
                - (Trader.init 0 0 true false (fun _ => 0) (fun _ => 0)).price_adj_step
              ≤ (((Trader.init 0 0 true false (fun _ => 0) (fun _ => 0)).learn
                  (some ⟨5, 0, -5, 0⟩) 0).ask_prices 0).1)
      ∧ ((⟨5, 0, -5, 0⟩ : Rewards).unit_cost_diff ≥ 0 →
        (((Trader.init 0 0 true false (fun _ => 0) (fun _ => 0)).learn
            (some ⟨5, 0, -5, 0⟩) 0).bid_prices 0).1
            = min (⟨5, 0, -5, 0⟩ : Rewards).unit_cost
                (((Trader.init 0 0 true false (fun _ => 0) (fun _ => 0)).bid_prices 0).1
                  + (Trader.init 0 0 true false (fun _ => 0) (fun _ => 0)).price_adj_step)
          ∧ (((Trader.init 0 0 true false (fun _ => 0) (fun _ => 0)).learn
                (some ⟨5, 0, -5, 0⟩) 0).bid_prices 0).1
              ≤ (⟨5, 0, -5, 0⟩ : Rewards).unit_cost
          ∧ (((Trader.init 0 0 true false (fun _ => 0) (fun _ => 0)).learn
                (some ⟨5, 0, -5, 0⟩) 0).bid_prices 0).1
              ≤ ((Trader.init 0 0 true false (fun _ => 0) (fun _ => 0)).bid_prices 0).1
                + (Trader.init 0 0 true false (fun _ => 0) (fun _ => 0)).price_adj_step)) :=
  ⟨rfl, learn_monotonic_clamp _ ⟨5, 0, -5, 0⟩ 0 rfl⟩

/-- C2: in `learn()`, with learning enabled and a reward 4-tuple, if
`unit_profit_diff > 0` the ask price moves up by one step exactly when
`unit_profit_diff` exceeds the slot's stored `last_signal` and down by one
step otherwise, and the ask slot's `last_signal` becomes
`unit_profit_diff`; mirror-image for the bid side when
`unit_cost_diff < 0`. -/
theorem learn_signal_step (s : Trader) (r : Rewards) (t : Fin 1440)
    (hl : s.learning = true) :
    (r.unit_profit_diff > 0 →
      (r.unit_profit_diff > (s.ask_prices t).2 →
        ((s.learn (some r) t).ask_prices t).1 = (s.ask_prices t).1 + s.price_adj_step)
      ∧ (r.unit_profit_diff ≤ (s.ask_prices t).2 →
        ((s.learn (some r) t).ask_prices t).1 = (s.ask_prices t).1 - s.price_adj_step)
      ∧ ((s.learn (some r) t).ask_prices t).2 = r.unit_profit_diff)
    ∧ (r.unit_cost_diff < 0 →
      (r.unit_cost_diff > (s.bid_prices t).2 →
        ((s.learn (some r) t).bid_prices t).1 = (s.bid_prices t).1 - s.price_adj_step)
      ∧ (r.unit_cost_diff ≤ (s.bid_prices t).2 →
        ((s.learn (some r) t).bid_prices t).1 = (s.bid_prices t).1 + s.price_adj_step)
      ∧ ((s.learn (some r) t).bid_prices t).2 = r.unit_cost_diff) := by
  constructor
  · intro hp
    have hp' : ¬ r.unit_profit_diff ≤ 0 := not_le.mpr hp
    refine ⟨?_, ?_, ?_⟩
    · intro hgt
      have hgt' : r.unit_profit_diff - (s.ask_prices t).2 > 0 := sub_pos.mpr hgt
      simp [Trader.learn, hl, hp', hgt', Function.update_same]
    · intro hle
      have hle' : ¬ r.unit_profit_diff - (s.ask_prices t).2 > 0 := by
        simp only [gt_iff_lt, sub_pos, not_lt]
        exact hle
      simp [Trader.learn, hl, hp', hle', Function.update_same]
    · simp [Trader.learn, hl, Function.update_same]
  · intro hc
    have hc' : ¬ r.unit_cost_diff ≥ 0 := not_le.mpr hc
    refine ⟨?_, ?_, ?_⟩
    · intro hgt
      have hgt' : r.unit_cost_diff - (s.bid_prices t).2 > 0 := sub_pos.mpr hgt
      simp [Trader.learn, hl, hc', hgt', Function.update_same]
    · intro hle
      have hle' : ¬ r.unit_cost_diff - (s.bid_prices t).2 > 0 := by
        simp only [gt_iff_lt, sub_pos, not_lt]
        exact hle
      simp [Trader.learn, hl, hc', hle', Function.update_same]
    · simp [Trader.learn, hl, Function.update_same]

/-- Witness for C2 at a concrete learning-enabled state and reward tuple. -/
theorem learn_signal_step_witness :
    (Trader.init 0 0 true false (fun _ => 0) (fun _ => 0)).learning = true
    ∧ (((⟨5, 1, -5, -1⟩ : Rewards).unit_profit_diff > 0 →
        ((⟨5, 1, -5, -1⟩ : Rewards).unit_profit_diff
            > ((Trader.init 0 0 true false (fun _ => 0) (fun _ => 0)).ask_prices 0).2 →
          (((Trader.init 0 0 true false (fun _ => 0) (fun _ => 0)).learn
              (some ⟨5, 1, -5, -1⟩) 0).ask_prices 0).1
            = ((Trader.init 0 0 true false (fun _ => 0) (fun _ => 0)).ask_prices 0).1
              + (Trader.init 0 0 true false (fun _ => 0) (fun _ => 0)).price_adj_step)
        ∧ ((⟨5, 1, -5, -1⟩ : Rewards).unit_profit_diff
            ≤ ((Trader.init 0 0 true false (fun _ => 0) (fun _ => 0)).ask_prices 0).2 →
          (((Trader.init 0 0 true false (fun _ => 0) (fun _ => 0)).learn
              (some ⟨5, 1, -5, -1⟩) 0).ask_prices 0).1
            = ((Trader.init 0 0 true false (fun _ => 0) (fun _ => 0)).ask_prices 0).1
              - (Trader.init 0 0 true false (fun _ => 0) (fun _ => 0)).price_adj_step)
        ∧ (((Trader.init 0 0 true false (fun _ => 0) (fun _ => 0)).learn
              (some ⟨5, 1, -5, -1⟩) 0).ask_prices 0).2
            = (⟨5, 1, -5, -1⟩ : Rewards).unit_profit_diff)
      ∧ ((⟨5, 1, -5, -1⟩ : Rewards).unit_cost_diff < 0 →
        ((⟨5, 1, -5, -1⟩ : Rewards).unit_cost_diff
            > ((Trader.init 0 0 true false (fun _ => 0) (fun _ => 0)).bid_prices 0).2 →
          (((Trader.init 0 0 true false (fun _ => 0) (fun _ => 0)).learn
              (some ⟨5, 1, -5, -1⟩) 0).bid_prices 0).1
            = ((Trader.init 0 0 true false (fun _ => 0) (fun _ => 0)).bid_prices 0).1
              - (Trader.init 0 0 true false (fun _ => 0) (fun _ => 0)).price_adj_step)
        ∧ ((⟨5, 1, -5, -1⟩ : Rewards).unit_cost_diff
            ≤ ((Trader.init 0 0 true false (fun _ => 0) (fun _ => 0)).bid_prices 0).2 →
          (((Trader.init 0 0 true false (fun _ => 0) (fun _ => 0)).learn
              (some ⟨5, 1, -5, -1⟩) 0).bid_prices 0).1
            = ((Trader.init 0 0 true false (fun _ => 0) (fun _ => 0)).bid_prices 0).1
              + (Trader.init 0 0 true false (fun _ => 0) (fun _ => 0)).price_adj_step)
        ∧ (((Trader.init 0 0 true false (fun _ => 0) (fun _ => 0)).learn
              (some ⟨5, 1, -5, -1⟩) 0).bid_prices 0).2
            = (⟨5, 1, -5, -1⟩ : Rewards).unit_cost_diff)) :=
  ⟨rfl, learn_signal_step _ ⟨5, 1, -5, -1⟩ 0 rfl⟩

lemma ema_foldl_count (vs : List ℚ) :
    ∀ e : EMA, e.count ≤ e.window_size →
      (vs.foldl EMA.update e).count = min (e.count + vs.length) e.window_size := by
  induction vs with
  | nil =>
    intro e he
    simp [min_eq_left he]
  | cons v vs ih =>
    intro e he
    have hupd : (e.update v).count = min (e.count + 1) e.window_size := rfl
    have hw : (e.update v).window_size = e.window_size := rfl
    simp only [List.foldl_cons]
    rw [ih (e.update v) (by rw [hupd, hw]; exact min_le_right _ _), hupd, hw,
      List.length_cons]
    omega

/-- C7: for an Exponential Tracker with `window_size = W > 0`, after `k`
updates the count is `k` when `k ≤ W` and `W` when `k > W`; and each
`update` sets `running_average` to
`old + (new_value - old) / count` with the post-increment count. -/
theorem ema_count_saturates_and_update_rule (W : ℕ) (hW : 0 < W) :
    (∀ vs : List ℚ,
      (vs.length ≤ W → (vs.foldl EMA.update (EMA.init W)).count = vs.length)
      ∧ (vs.length > W → (vs.foldl EMA.update (EMA.init W)).count = W))
    ∧ (∀ (e : EMA) (v : ℚ),
        (e.update v).count = min (e.count + 1) e.window_size
        ∧ (e.update v).last_average
            = e.last_average
              + (v - e.last_average) / ((min (e.count + 1) e.window_size : ℕ) : ℚ)) := by
  refine ⟨fun vs => ?_, fun e v => ⟨rfl, rfl⟩⟩
  have h := ema_foldl_count vs (EMA.init W) (by simp [EMA.init])
  constructor
  · intro hle
    rw [h]
    simp only [EMA.init]
    omega
  · intro hgt
    rw [h]
    simp only [EMA.init]
    omega

/-- Witness for C7 at `W = 3` with a 5-element update sequence. -/
theorem ema_count_saturates_witness :
    0 < 3
    ∧ ((∀ vs : List ℚ,
        (vs.length ≤ 3 → (vs.foldl EMA.update (EMA.init 3)).count = vs.length)
        ∧ (vs.length > 3 → (vs.foldl EMA.update (EMA.init 3)).count = 3))
      ∧ (∀ (e : EMA) (v : ℚ),
          (e.update v).count = min (e.count + 1) e.window_size
          ∧ (e.update v).last_average
              = e.last_average
                + (v - e.last_average) / ((min (e.count + 1) e.window_size : ℕ) : ℚ))) :=
  ⟨by decide, ema_count_saturates_and_update_rule 3 (by decide)⟩

/-- C8: `learn()` is a no-op (the whole agent state is unchanged) whenever
the learning flag is false, and whenever the reward calculator returns
`None`; equivalently, state can only change when learning is enabled and a
4-tuple is returned. -/
theorem learn_noop_when_disabled (s : Trader) (r : Option Rewards) (t : Fin 1440)
    (h : s.learning = false ∨ r = none) :
    s.learn r t = s := by
  rcases h with h | h
  · simp [Trader.learn, h]
  · subst h
    unfold Trader.learn
    split <;> rfl

/-- Witness for C8: a learning-enabled trader with a `None` reward. -/
theorem learn_noop_when_disabled_witness :
    ((Trader.init 0 0 true false (fun _ => 0) (fun _ => 0)).learning = false
        ∨ (none : Option Rewards) = none)
    ∧ (Trader.init 0 0 true false (fun _ => 0) (fun _ => 0)).learn none 0
        = Trader.init 0 0 true false (fun _ => 0) (fun _ => 0) :=
  ⟨Or.inr rfl, learn_noop_when_disabled _ none 0 (Or.inr rfl)⟩

/-- C10: with no storage configured, when next-settle load equals
next-settle generation (zero residual load and zero residual generation),
`act()` returns an empty action set. -/
theorem act_balanced_no_storage_empty (s : Trader) (e : ActEnv) (t : Fin 1440)
    (hs : s.hasStorage = false) (hb : e.next_load = e.next_generation) :
    s.act e t
      = (s, { bess_current := none, bess_next := none, bids := none, asks := none }) := by
  have h0 : e.next_load - e.next_generation = 0 := sub_eq_zero.mpr hb
  unfold Trader.act
  simp [hs, h0]

/-- Witness for C10: load = generation = 7 and no storage. -/
theorem act_balanced_no_storage_empty_witness :
    (Trader.init 0 0 false false (fun _ => 0) (fun _ => 0)).hasStorage = false
    ∧ (ActEnv.mk 7 7 0 0 ⟨0, 0, 0, 0⟩ ⟨0, 0⟩).next_load
        = (ActEnv.mk 7 7 0 0 ⟨0, 0, 0, 0⟩ ⟨0, 0⟩).next_generation
    ∧ (Trader.init 0 0 false false (fun _ => 0) (fun _ => 0)).act
        (ActEnv.mk 7 7 0 0 ⟨0, 0, 0, 0⟩ ⟨0, 0⟩) 0
      = (Trader.init 0 0 false false (fun _ => 0) (fun _ => 0),
         { bess_current := none, bess_next := none, bids := none, asks := none }) :=
  ⟨rfl, rfl, act_balanced_no_storage_empty _ _ 0 rfl rfl⟩

/-- C4: for a reachable agent state with no storage configured, whenever
next-settle residual load is positive, `act()` returns exactly one bid for
the full residual load, source `"solar"`, at the learned bid-table price
of the next settle's minute of day, and no asks and no bess entries. -/
theorem act_no_storage_residual_bid (s : Trader) (e : ActEnv) (t : Fin 1440)
    (hr : Reachable s) (hs : s.hasStorage = false)
    (hl : e.next_load - e.next_generation > 0) :
    s.act e t
      = (s, { bess_current := none
              bess_next := none
              bids := some { quantity := e.next_load - e.next_generation
                             source := "solar"
                             price := (s.bid_prices t).1 }
              asks := none }) := by
  have hb : s.buy_trigger = false := reachable_no_storage_buy_trigger s hr hs
  unfold Trader.act
  simp [hs, hl, hb]

/-- Witness for C4: residual load 10, learned bid price 0.12 for the
bucket, no storage; `act()` bids quantity 10 at price 0.12. -/
theorem act_no_storage_residual_bid_witness :
    Reachable (Trader.init (12/100) (12/100) false false (fun _ => 12) (fun _ => 12))
    ∧ (Trader.init (12/100) (12/100) false false
        (fun _ => 12) (fun _ => 12)).hasStorage = false
    ∧ ((ActEnv.mk 0 10 0 0 ⟨0, 0, 0, 0⟩ ⟨0, 0⟩).next_load
        - (ActEnv.mk 0 10 0 0 ⟨0, 0, 0, 0⟩ ⟨0, 0⟩).next_generation > 0)
    ∧ (Trader.init (12/100) (12/100) false false (fun _ => 12) (fun _ => 12)).act
        (ActEnv.mk 0 10 0 0 ⟨0, 0, 0, 0⟩ ⟨0, 0⟩) 0
      = (Trader.init (12/100) (12/100) false false (fun _ => 12) (fun _ => 12),
         { bess_current := none
           bess_next := none
           bids := some { quantity := 10, source := "solar", price := 12/100 }
           asks := none }) := by
  refine ⟨Reachable.init _ _ _ _ _ _, rfl, by norm_num, ?_⟩
  have h := act_no_storage_residual_bid
    (Trader.init (12/100) (12/100) false false (fun _ => 12) (fun _ => 12))
    (ActEnv.mk 0 10 0 0 ⟨0, 0, 0, 0⟩ ⟨0, 0⟩) 0
    (Reachable.init _ _ _ _ _ _) rfl (by norm_num)
  convert h using 3 <;> norm_num [Trader.init]

/-- C3: during `act()` with storage configured and positive next-settle
residual load, if the buy condition (short bid average below long bid
average, projected soc below 0.9) and the sell condition (short ask
average at least long ask average, projected soc above 0.3) hold
simultaneously, the resulting trigger state is `buy = false`,
`sell = true`. -/
theorem act_tie_break_sell_precedence (s : Trader) (e : ActEnv) (t : Fin 1440)
    (hs : s.hasStorage = true)
    (hl : e.next_load - e.next_generation > 0)
    (hbuy1 : s.sma_bid.last_average < s.lma_bid.last_average)
    (hbuy2 : e.storage.projected_soc < 9/10)
    (hsell1 : s.sma_ask.last_average ≥ s.lma_ask.last_average)
    (hsell2 : e.storage.projected_soc > 3/10) :
    ((s.act e t).1).buy_trigger = false ∧ ((s.act e t).1).sell_trigger = true := by
  have htrig : computeTriggers s e.storage.projected_soc = (false, true) := by
    simp [computeTriggers, hbuy1, hbuy2, hsell1, hsell2]
  unfold Trader.act
  simp only [hs, hl, htrig, if_pos, if_true]
  split_ifs <;> simp [htrig]

/-- Witness for C3 at concrete trackers that fire both conditions. -/
theorem act_tie_break_sell_precedence_witness :
    (Trader.mk true false (1/1000) (fun _ => (0, 0)) (fun _ => (0, 0))
        ⟨23, 1, 0⟩ ⟨50, 1, 1⟩ ⟨23, 1, 1⟩ ⟨50, 1, 0⟩ false false).hasStorage = true
    ∧ ((ActEnv.mk 0 10 0 0 ⟨0, 0, 0, 1/2⟩ ⟨0, 0⟩).next_load
        - (ActEnv.mk 0 10 0 0 ⟨0, 0, 0, 1/2⟩ ⟨0, 0⟩).next_generation > 0)
    ∧ ((0 : ℚ) < 1) ∧ ((1/2 : ℚ) < 9/10) ∧ ((1 : ℚ) ≥ 0) ∧ ((1/2 : ℚ) > 3/10)
    ∧ ((((Trader.mk true false (1/1000) (fun _ => (0, 0)) (fun _ => (0, 0))
          ⟨23, 1, 0⟩ ⟨50, 1, 1⟩ ⟨23, 1, 1⟩ ⟨50, 1, 0⟩ false false).act
          (ActEnv.mk 0 10 0 0 ⟨0, 0, 0, 1/2⟩ ⟨0, 0⟩) 0).1).buy_trigger = false
      ∧ (((Trader.mk true false (1/1000) (fun _ => (0, 0)) (fun _ => (0, 0))
          ⟨23, 1, 0⟩ ⟨50, 1, 1⟩ ⟨23, 1, 1⟩ ⟨50, 1, 0⟩ false false).act
          (ActEnv.mk 0 10 0 0 ⟨0, 0, 0, 1/2⟩ ⟨0, 0⟩) 0).1).sell_trigger = true) := by
  refine ⟨rfl, by norm_num, by norm_num, by norm_num, by norm_num, by norm_num, ?_⟩
  exact act_tie_break_sell_precedence _ _ 0 rfl (by norm_num) (by norm_num)
    (by norm_num) (by norm_num) (by norm_num)

/-- C9 (amended): with storage configured, `act()` recomputes the trigger
state from the trackers' current running averages and the projected state
of charge exactly when the next-settle residual load is positive; when the
residual load is zero or negative, the trader state — including both
trigger flags — is left unchanged from the previous round. -/
theorem act_trigger_recompute_only_when_positive (s : Trader) (e : ActEnv)
    (t : Fin 1440) (hs : s.hasStorage = true) :
    (e.next_load - e.next_generation > 0 →
      ((s.act e t).1).buy_trigger = (computeTriggers s e.storage.projected_soc).1
      ∧ ((s.act e t).1).sell_trigger = (computeTriggers s e.storage.projected_soc).2)
    ∧ (¬ e.next_load - e.next_generation > 0 → (s.act e t).1 = s) := by
  constructor
  · intro hl
    unfold Trader.act
    simp only [hs, hl, if_true, if_pos]
    split_ifs <;> exact ⟨rfl, rfl⟩
  · intro hl
    unfold Trader.act
    simp only [hs, hl, if_false]
    split_ifs <;> rfl

/-- Witness for C9's amended theorem at a concrete storage-enabled state. -/
theorem act_trigger_recompute_only_when_positive_witness :
    (Trader.init 0 0 false true (fun _ => 0) (fun _ => 0)).hasStorage = true
    ∧ (((ActEnv.mk 0 1 0 0 ⟨0, 0, 0, 1/2⟩ ⟨0, 0⟩).next_load
          - (ActEnv.mk 0 1 0 0 ⟨0, 0, 0, 1/2⟩ ⟨0, 0⟩).next_generation > 0 →
        (((Trader.init 0 0 false true (fun _ => 0) (fun _ => 0)).act
            (ActEnv.mk 0 1 0 0 ⟨0, 0, 0, 1/2⟩ ⟨0, 0⟩) 0).1).buy_trigger
          = (computeTriggers (Trader.init 0 0 false true (fun _ => 0) (fun _ => 0))
              (ActEnv.mk 0 1 0 0 ⟨0, 0, 0, 1/2⟩ ⟨0, 0⟩).storage.projected_soc).1
        ∧ (((Trader.init 0 0 false true (fun _ => 0) (fun _ => 0)).act
            (ActEnv.mk 0 1 0 0 ⟨0, 0, 0, 1/2⟩ ⟨0, 0⟩) 0).1).sell_trigger
          = (computeTriggers (Trader.init 0 0 false true (fun _ => 0) (fun _ => 0))
              (ActEnv.mk 0 1 0 0 ⟨0, 0, 0, 1/2⟩ ⟨0, 0⟩).storage.projected_soc).2)
      ∧ (¬ (ActEnv.mk 0 1 0 0 ⟨0, 0, 0, 1/2⟩ ⟨0, 0⟩).next_load
            - (ActEnv.mk 0 1 0 0 ⟨0, 0, 0, 1/2⟩ ⟨0, 0⟩).next_generation > 0 →
        ((Trader.init 0 0 false true (fun _ => 0) (fun _ => 0)).act
            (ActEnv.mk 0 1 0 0 ⟨0, 0, 0, 1/2⟩ ⟨0, 0⟩) 0).1
          = Trader.init 0 0 false true (fun _ => 0) (fun _ => 0))) :=
  ⟨rfl, act_trigger_recompute_only_when_positive _ _ 0 rfl⟩

/-- Counterexample to C9 as stated: a storage-enabled agent whose
`sell_trigger` was set to true by an earlier round keeps it stale through
an `act()` call with zero residual load, even though recomputing from the
current projected state of charge (0, below 0.3) would clear it. -/
theorem act_trigger_stale_counterexample :
    ((((Trader.mk true false (1/1000) (fun _ => (0, 0)) (fun _ => (0, 0))
          ⟨23, 0, 0⟩ ⟨50, 0, 0⟩ ⟨23, 0, 0⟩ ⟨50, 0, 0⟩ false false).act
          (ActEnv.mk 0 1 0 0 ⟨0, 0, 0, 1/2⟩ ⟨0, 0⟩) 0).1.act
          (ActEnv.mk 0 0 0 0 ⟨0, 0, 0, 0⟩ ⟨0, 0⟩) 0).1).sell_trigger = true
    ∧ (computeTriggers
        ((Trader.mk true false (1/1000) (fun _ => (0, 0)) (fun _ => (0, 0))
          ⟨23, 0, 0⟩ ⟨50, 0, 0⟩ ⟨23, 0, 0⟩ ⟨50, 0, 0⟩ false false).act
          (ActEnv.mk 0 1 0 0 ⟨0, 0, 0, 1/2⟩ ⟨0, 0⟩) 0).1
        (ActEnv.mk 0 0 0 0 ⟨0, 0, 0, 0⟩ ⟨0, 0⟩).storage.projected_soc).2 = false := by
  have h1 : ((Trader.mk true false (1/1000) (fun _ => (0, 0)) (fun _ => (0, 0))
      ⟨23, 0, 0⟩ ⟨50, 0, 0⟩ ⟨23, 0, 0⟩ ⟨50, 0, 0⟩ false false).act
      (ActEnv.mk 0 1 0 0 ⟨0, 0, 0, 1/2⟩ ⟨0, 0⟩) 0).1
      = Trader.mk true false (1/1000) (fun _ => (0, 0)) (fun _ => (0, 0))
          ⟨23, 0, 0⟩ ⟨50, 0, 0⟩ ⟨23, 0, 0⟩ ⟨50, 0, 0⟩ false true := by
    unfold Trader.act
    norm_num [computeTriggers]
  have h2 : ∀ s : Trader,
      (s.act (ActEnv.mk 0 0 0 0 ⟨0, 0, 0, 0⟩ ⟨0, 0⟩) (0 : Fin 1440)).1 = s := by
    intro s
    unfold Trader.act
    norm_num
  constructor
  · rw [h2, h1]
  · rw [h1]
    norm_num [computeTriggers]

/-- C5: for every `min_price`, `max_price` and window with
`1440 % window = 0`, given the `randint` contract (each draw lies between
the sorted scaled bounds), the generated price table has exactly the keys
`0..1439` in order, every price lies between `min` and `max` of the two
reference prices, minutes in the same window-sized chunk share one initial
price, and every `last_signal` starts at 0. -/
theorem generate_price_table_spec (bid_price ask_price : ℚ) (w : ℕ) (rand : ℕ → ℤ)
    (hw : 1440 % w = 0)
    (hr : ∀ i, min (bid_price * 100) (ask_price * 100) ≤ (rand i : ℚ)
        ∧ (rand i : ℚ) ≤ max (bid_price * 100) (ask_price * 100)) :
    ∃ tbl, generate_price_table bid_price ask_price w rand = some tbl
      ∧ tbl.map Prod.fst = List.range 1440
      ∧ (∀ p ∈ tbl, min bid_price ask_price ≤ p.2.1
          ∧ p.2.1 ≤ max bid_price ask_price ∧ p.2.2 = 0)
      ∧ (∀ i j x y, (i, x) ∈ tbl → (j, y) ∈ tbl → i / w = j / w → x.1 = y.1) := by
  refine ⟨_, generate_price_table_eq_map bid_price ask_price w rand hw, ?_, ?_, ?_⟩
  · have hcomp : (Prod.fst ∘ fun i : ℕ => (i, ((rand (i / w) : ℚ) / 100, (0:ℚ))))
        = id := rfl
    rw [List.map_map, hcomp, List.map_id]
  · intro p hp
    rcases List.mem_map.mp hp with ⟨i, _, rfl⟩
    refine ⟨?_, ?_, rfl⟩
    · rcases le_total bid_price ask_price with h | h
      · have h100 : bid_price * 100 ≤ ask_price * 100 := by linarith
        have hm := (hr (i / w)).1
        rw [min_eq_left h100] at hm
        rw [min_eq_left h]
        show bid_price ≤ (rand (i / w) : ℚ) / 100
        linarith
      · have h100 : ask_price * 100 ≤ bid_price * 100 := by linarith
        have hm := (hr (i / w)).1
        rw [min_eq_right h100] at hm
        rw [min_eq_right h]
        show ask_price ≤ (rand (i / w) : ℚ) / 100
        linarith
    · rcases le_total bid_price ask_price with h | h
      · have h100 : bid_price * 100 ≤ ask_price * 100 := by linarith
        have hm := (hr (i / w)).2
        rw [max_eq_right h100] at hm
        rw [max_eq_right h]
        show (rand (i / w) : ℚ) / 100 ≤ ask_price
        linarith
      · have h100 : ask_price * 100 ≤ bid_price * 100 := by linarith
        have hm := (hr (i / w)).2
        rw [max_eq_left h100] at hm
        rw [max_eq_left h]
        show (rand (i / w) : ℚ) / 100 ≤ bid_price
        linarith
  · intro i j x y hi hj hij
    rcases List.mem_map.mp hi with ⟨a, _, ha⟩
    rcases List.mem_map.mp hj with ⟨b, _, hb⟩
    have ha1 : a = i := congrArg Prod.fst ha
    have hb1 : b = j := congrArg Prod.fst hb
    have hx : (((rand (a / w) : ℚ)) / 100, (0:ℚ)) = x := congrArg Prod.snd ha
    have hy : (((rand (b / w) : ℚ)) / 100, (0:ℚ)) = y := congrArg Prod.snd hb
    subst ha1
    subst hb1
    rw [← hx, ← hy]
    simp [hij]

/-- Witness for C5 at `bid = ask = 0`, window 15, constant draw 0. -/
theorem generate_price_table_spec_witness :
    (1440 % 15 = 0)
    ∧ (∀ i : ℕ, min ((0:ℚ) * 100) ((0:ℚ) * 100) ≤ (((fun _ => (0:ℤ)) i : ℤ) : ℚ)
        ∧ ((((fun _ => (0:ℤ)) i : ℤ) : ℚ)) ≤ max ((0:ℚ) * 100) ((0:ℚ) * 100))
    ∧ ∃ tbl, generate_price_table 0 0 15 (fun _ => 0) = some tbl
      ∧ tbl.map Prod.fst = List.range 1440
      ∧ (∀ p ∈ tbl, min (0:ℚ) 0 ≤ p.2.1 ∧ p.2.1 ≤ max (0:ℚ) 0 ∧ p.2.2 = 0)
      ∧ (∀ i j x y, (i, x) ∈ tbl → (j, y) ∈ tbl → i / 15 = j / 15 → x.1 = y.1) :=
  ⟨by norm_num, fun i => by norm_num,
    generate_price_table_spec 0 0 15 (fun _ => 0) (by norm_num) (fun i => by norm_num)⟩

/-- C6 (amended): for every window with `1440 % window ≠ 0`, price table
generation does not produce a table at all: the first remainder slot
(minute `window * (1440 / window)`, or minute 0 when `window > 1440`)
looks up the out-of-range chunk index `1440 / window`, so the generator
fails with an index error (modelled as `none`). -/
theorem generate_price_table_fails_when_not_dividing (bid_price ask_price : ℚ)
    (w : ℕ) (rand : ℕ → ℤ) (hw : 1440 % w ≠ 0) :
    generate_price_table bid_price ask_price w rand = none :=
  generate_price_table_eq_none bid_price ask_price w rand hw

/-- Witness for C6's amended theorem at window 13. -/
theorem generate_price_table_fails_when_not_dividing_witness :
    (1440 % 13 ≠ 0) ∧ generate_price_table 0 0 13 (fun _ => 0) = none :=
  ⟨by norm_num,
    generate_price_table_fails_when_not_dividing 0 0 13 (fun _ => 0) (by norm_num)⟩

/-- Counterexample to C6 as stated: at window 13 (which does not divide
1440) the generator produces no table at all, so in particular it does not
produce all 1440 entries. -/
theorem generate_price_table_remainder_counterexample :
    ¬ ∃ tbl, generate_price_table 0 0 13 (fun _ => 0) = some tbl
        ∧ tbl.map Prod.fst = List.range 1440 := by
  rintro ⟨tbl, htbl, -⟩
  rw [generate_price_table_eq_none 0 0 13 (fun _ => 0) (by norm_num)] at htbl
  exact Option.noConfusion htbl
